import Mathlib

/-!
Shallow embedding of `src/clearaml/tuning/base.py` (module
`clearaml.tuning.base`): the distribution descriptors `Choice`,
`Uniform`, `Normal`, the abstract tuner contract `ParamsTuner` and its
trivial concrete realization `DefaultTuner`.

Modelling conventions:
* A Python value stored in the `_best_params` slot is either Python
  `None` (embedded as `Option.none`) or a parameter mapping of some
  type `Params` (embedded as `Option.some p`).
* Python attribute lookup on a tuner instance consults the instance
  `__dict__` first and falls back to the class attribute; the instance
  `__dict__` entry for each attribute is modelled as an `Option`-valued
  field (`Option.none` = no instance attribute set).
* Python constructors may raise, so `__init__` methods are embedded as
  `Except`-valued functions; the bodies in the source raise nothing, so
  they always return `Except.ok`.
* `DefaultTuner.fit` mutates `self`; it is embedded as a function from
  the pre-state to a `FitOutcome` carrying the post-state, the list of
  attribute assignments the body executed, and the returned value (or
  the propagated exception of `init_params_on_input`).
-/

namespace ClearAML

/-- Python exceptions raised by this module.  The only exception the
module itself constructs is `AttributeError` in `ParamsTuner.best_params`. -/
inductive PyErr where
  | attributeError (msg : String)
  deriving DecidableEq

/-- `class Choice(DistributionBase)`: `__init__(self, options)` stores
`self.options = options`.  The options object is modelled as an ordered
list. -/
structure Choice (β : Type) where
  options : List β
  deriving DecidableEq

/-- `Choice.__init__`: stores the options unchanged; the body contains no
raise and no validation. -/
def Choice.init (options : List β) : Except PyErr (Choice β) :=
  Except.ok ⟨options⟩

/-- `class Uniform(DistributionBase)`: fields `low`, `high`, `q`, `log`
as assigned in `__init__(self, low, high, q=None, log=False)`.
`q` holds Python `None` (`Option.none`) or a value. -/
structure Uniform (α : Type) where
  low : α
  high : α
  q : Option α
  log : Bool
  deriving DecidableEq

/-- `Uniform.__init__`: stores the four arguments unchanged; no raise,
no validation. -/
def Uniform.init (low high : α) (q : Option α) (lg : Bool) : Except PyErr (Uniform α) :=
  Except.ok ⟨low, high, q, lg⟩

/-- `Uniform(low, high)` with the optional arguments omitted: the
signature defaults are `q=None`, `log=False`. -/
def Uniform.initTwo (low high : α) : Except PyErr (Uniform α) :=
  Uniform.init low high Option.none false

/-- `class Normal(DistributionBase)`: fields `low`, `high`, `q`, `log`
as assigned in `__init__(self, low, high, q=None, log=False)` — the same
shape as `Uniform`. -/
structure Normal (α : Type) where
  low : α
  high : α
  q : Option α
  log : Bool
  deriving DecidableEq

/-- `Normal.__init__`: stores the four arguments unchanged; no raise,
no validation. -/
def Normal.init (low high : α) (q : Option α) (lg : Bool) : Except PyErr (Normal α) :=
  Except.ok ⟨low, high, q, lg⟩

/-- `Normal(low, high)` with the optional arguments omitted: the
signature defaults are `q=None`, `log=False`. -/
def Normal.initTwo (low high : α) : Except PyErr (Normal α) :=
  Normal.init low high Option.none false

/-- Class attribute `ParamsTuner._name: str = "AbstractTuner"`. -/
def ParamsTuner.class_name : String := "AbstractTuner"

/-- Class attribute `ParamsTuner._best_params: Dict = None`.  The
annotated assignment creates the class attribute with value Python
`None`. -/
def ParamsTuner.class_best_params (Params : Type) : Option Params :=
  Option.none

/-- Class attribute `ParamsTuner._fit_on_holdout: bool = False`. -/
def ParamsTuner.class_fit_on_holdout : Bool := false

/-- Instance state of a `DefaultTuner` (the only concrete `ParamsTuner`
subclass in the source).  Each field is the instance `__dict__` entry
for the corresponding attribute; no `__init__` is defined, so a fresh
instance has all entries absent. -/
structure DefaultTuner (Params : Type) where
  inst_name : Option String
  inst_fit_on_holdout : Option Bool
  inst_best_params : Option (Option Params)
  deriving DecidableEq

/-- Class attribute `DefaultTuner._name: str = "DefaultTuner"`
(shadowing `ParamsTuner._name`). -/
def DefaultTuner.class_name : String := "DefaultTuner"

/-- `DefaultTuner()`: no `__init__` is defined anywhere in the
hierarchy, so construction produces an empty instance `__dict__`. -/
def DefaultTuner.new (Params : Type) : DefaultTuner Params :=
  ⟨Option.none, Option.none, Option.none⟩

/-- Attribute lookup for `self._best_params` on a `DefaultTuner`:
instance `__dict__` first, then the class attribute
`ParamsTuner._best_params = None`, which always exists. -/
def DefaultTuner.lookup_best_params (t : DefaultTuner Params) : Option (Option Params) :=
  match t.inst_best_params with
  | Option.some v => Option.some v
  | Option.none => Option.some (ParamsTuner.class_best_params Params)

/-- `hasattr(self, "_best_params")`: whether attribute lookup succeeds. -/
def DefaultTuner.hasattr_best_params (t : DefaultTuner Params) : Bool :=
  (DefaultTuner.lookup_best_params t).isSome

/-- `self._best_params`: the value attribute lookup produces (lookup
always succeeds here because of the class attribute). -/
def DefaultTuner.getattr_best_params (t : DefaultTuner Params) : Option Params :=
  (DefaultTuner.lookup_best_params t).getD Option.none

/-- The `best_params` property inherited from `ParamsTuner`:

    if not hasattr(self, "_best_params"):
        raise AttributeError("ParamsTuner should be fitted first")
    return self._best_params
-/
def DefaultTuner.best_params (t : DefaultTuner Params) : Except PyErr (Option Params) :=
  if DefaultTuner.hasattr_best_params t = false then
    Except.error (PyErr.attributeError "ParamsTuner should be fitted first")
  else
    Except.ok (DefaultTuner.getattr_best_params t)

/-- `self._name` on a `DefaultTuner`: instance entry, falling back to
the class attribute `DefaultTuner._name`. -/
def DefaultTuner.getName (t : DefaultTuner Params) : String :=
  t.inst_name.getD DefaultTuner.class_name

/-- `self._fit_on_holdout` on a `DefaultTuner`: instance entry, falling
back to the class attribute `ParamsTuner._fit_on_holdout`. -/
def DefaultTuner.getFitOnHoldout (t : DefaultTuner Params) : Bool :=
  t.inst_fit_on_holdout.getD ParamsTuner.class_fit_on_holdout

/-- The external ML-algorithm capability (`clearaml.ml_algo.base.MLAlgo`,
outside this excerpt; per the spec it "must expose an operation that,
given an optional train/validation iterator, returns an initial/default
parameter mapping").  The operation may raise (`Except.error`). -/
structure MLAlgo (It E Params : Type) where
  init_params_on_input : Option It → Except E Params

/-- The tuner attributes `DefaultTuner.fit` could assign to; used to
record which assignments a call executes. -/
inductive TunerField where
  | bestParams
  | name
  | fitOnHoldout
  deriving DecidableEq

/-- Outcome of a `DefaultTuner.fit` call: the post-state of the tuner,
the attribute assignments the body executed (in order), and the returned
value — `Except.error` when `init_params_on_input` raised, in which case
the exception propagates and nothing was assigned. -/
structure FitOutcome (Params E M D : Type) where
  tuner : DefaultTuner Params
  writes : List TunerField
  result : Except E (Option M × Option D)

/-- `DefaultTuner.fit(self, ml_algo, train_valid_iterator=None)`:

    self._best_params = ml_algo.init_params_on_input(train_valid_iterator=train_valid_iterator)
    return None, None

The right-hand side is evaluated first; if it raises, the assignment
never happens and the exception propagates.  `M` and `D` are the
(unused here) types of the `(BestMLAlgo, BestPredictionsLAMLDataset)`
return shape. -/
def DefaultTuner.fit (t : DefaultTuner Params) (ml_algo : MLAlgo It E Params)
    (train_valid_iterator : Option It) : FitOutcome Params E M D :=
  match ml_algo.init_params_on_input train_valid_iterator with
  | Except.error e => ⟨t, [], Except.error e⟩
  | Except.ok p =>
      ⟨⟨t.inst_name, t.inst_fit_on_holdout, Option.some (Option.some p)⟩,
       [TunerField.bestParams],
       Except.ok (Option.none, Option.none)⟩

/-- `tuner.fit(ml_algo)` with the iterator argument omitted: the
signature default is `train_valid_iterator=None`. -/
def DefaultTuner.fitNoIter (t : DefaultTuner Params) (ml_algo : MLAlgo It E Params) :
    FitOutcome Params E M D :=
  DefaultTuner.fit t ml_algo Option.none

/-- Test double: an algorithm whose `init_params_on_input` always
returns the fixed mapping `P`. -/
def constAlgo (It E : Type) (P : Params) : MLAlgo It E Params :=
  ⟨fun _ => Except.ok P⟩

/-- Test double: an algorithm whose `init_params_on_input` always
raises `e`. -/
def failAlgo (It Params : Type) (e : E) : MLAlgo It E Params :=
  ⟨fun _ => Except.error e⟩

/-- Test double: an algorithm that records the iterator argument it
received by returning it as the parameter mapping. -/
def recorderAlgo (It E : Type) : MLAlgo It E (Option It) :=
  ⟨fun it => Except.ok it⟩

/-- Claim C1.  The claim says reading `best_params` on a freshly
constructed tuner raises `AttributeError`; the code instead returns
Python `None`: the class attribute `_best_params: Dict = None` makes
`hasattr(self, "_best_params")` true on every instance, so the guard in
the property can never fire, contradicting the property's own docstring
("Raises: AttributeError: If the ParamsTuner has not been fitted
yet"). -/
theorem C1_unfitted_best_params_returns_none :
    DefaultTuner.best_params (DefaultTuner.new Nat) = Except.ok Option.none := by
  rfl

/-- Claim C2.  If `algorithm.init_params_on_input(None)` returns the
mapping `P`, then `DefaultTuner.fit(algorithm)` with no iterator returns
`(None, None)` and afterwards `best_params` is exactly `P`. -/
theorem C2_default_fit_stores_defaults (It E M D Params : Type)
    (t : DefaultTuner Params) (a : MLAlgo It E Params) (P : Params)
    (h : a.init_params_on_input Option.none = Except.ok P) :
    (DefaultTuner.fitNoIter t a : FitOutcome Params E M D).result
        = Except.ok (Option.none, Option.none)
    ∧ DefaultTuner.best_params (DefaultTuner.fitNoIter t a : FitOutcome Params E M D).tuner
        = Except.ok (Option.some P) := by
  simp [DefaultTuner.fitNoIter, DefaultTuner.fit, h, DefaultTuner.best_params,
    DefaultTuner.hasattr_best_params, DefaultTuner.lookup_best_params,
    DefaultTuner.getattr_best_params]

/-- Witness for C2 at a concrete input: the constant algorithm returning
the mapping `7` over `Params = Nat`. -/
theorem C2_default_fit_stores_defaults_witness :
    (constAlgo Unit Unit (7 : Nat)).init_params_on_input Option.none = Except.ok 7
    ∧ ((DefaultTuner.fitNoIter (DefaultTuner.new Nat) (constAlgo Unit Unit 7) :
          FitOutcome Nat Unit Unit Unit).result = Except.ok (Option.none, Option.none)
        ∧ DefaultTuner.best_params (DefaultTuner.fitNoIter (DefaultTuner.new Nat)
            (constAlgo Unit Unit 7) : FitOutcome Nat Unit Unit Unit).tuner
          = Except.ok (Option.some 7)) :=
  ⟨rfl, C2_default_fit_stores_defaults Unit Unit Unit Unit Nat (DefaultTuner.new Nat)
    (constAlgo Unit Unit 7) 7 rfl⟩

/-- Claim C3.  The distribution descriptors round-trip their constructor
arguments unchanged: each constructor succeeds and the stored fields are
exactly the arguments given. -/
theorem C3_descriptor_roundtrip (α β : Type) (low high : α) (q : Option α)
    (lg : Bool) (opts : List β) :
    (∃ u : Uniform α, Uniform.init low high q lg = Except.ok u
        ∧ u.low = low ∧ u.high = high ∧ u.q = q ∧ u.log = lg)
    ∧ (∃ c : Choice β, Choice.init opts = Except.ok c ∧ c.options = opts)
    ∧ (∃ n : Normal α, Normal.init low high q lg = Except.ok n
        ∧ n.low = low ∧ n.high = high ∧ n.q = q ∧ n.log = lg) :=
  ⟨⟨⟨low, high, q, lg⟩, rfl, rfl, rfl, rfl, rfl⟩,
   ⟨⟨opts⟩, rfl, rfl⟩,
   ⟨⟨low, high, q, lg⟩, rfl, rfl, rfl, rfl, rfl⟩⟩

/-- Claim C4.  Fitting twice leaves `best_params` equal to the second
algorithm's defaults: the second call fully overwrites the first. -/
theorem C4_last_call_wins (It E M D Params : Type) (t : DefaultTuner Params)
    (a1 a2 : MLAlgo It E Params) (it1 it2 : Option It) (P1 P2 : Params)
    (h1 : a1.init_params_on_input it1 = Except.ok P1)
    (h2 : a2.init_params_on_input it2 = Except.ok P2) :
    DefaultTuner.best_params
        (DefaultTuner.fit
          (DefaultTuner.fit t a1 it1 : FitOutcome Params E M D).tuner a2 it2 :
            FitOutcome Params E M D).tuner
      = Except.ok (Option.some P2) := by
  simp [DefaultTuner.fit, h1, h2, DefaultTuner.best_params,
    DefaultTuner.hasattr_best_params, DefaultTuner.lookup_best_params,
    DefaultTuner.getattr_best_params]

/-- Witness for C4 at a concrete input: two constant algorithms with
mappings `1` and `2`; after both fits `best_params` is `2`. -/
theorem C4_last_call_wins_witness :
    (constAlgo Unit Unit (1 : Nat)).init_params_on_input Option.none = Except.ok 1
    ∧ (constAlgo Unit Unit (2 : Nat)).init_params_on_input Option.none = Except.ok 2
    ∧ DefaultTuner.best_params
        (DefaultTuner.fit
          (DefaultTuner.fit (DefaultTuner.new Nat) (constAlgo Unit Unit 1) Option.none :
            FitOutcome Nat Unit Unit Unit).tuner (constAlgo Unit Unit 2) Option.none :
            FitOutcome Nat Unit Unit Unit).tuner
      = Except.ok (Option.some 2) :=
  ⟨rfl, rfl,
    C4_last_call_wins Unit Unit Unit Unit Nat (DefaultTuner.new Nat)
      (constAlgo Unit Unit 1) (constAlgo Unit Unit 2) Option.none Option.none 1 2 rfl rfl⟩

/-- Claim C5.  `fit` forwards its iterator argument unchanged to
`init_params_on_input`: with an algorithm that records the argument it
received (by returning it as the mapping), the stored best-params value
is exactly the iterator passed to `fit`. -/
theorem C5_forwards_iterator (It E M D : Type) (t : DefaultTuner (Option It))
    (it : Option It) :
    DefaultTuner.best_params
        (DefaultTuner.fit t (recorderAlgo It E) it : FitOutcome (Option It) E M D).tuner
      = Except.ok (Option.some it) := by
  rfl

/-- Claim C6.  If `init_params_on_input` raises during `fit`, the error
propagates unchanged and the tuner state — in particular its best-params
attribute — is exactly as before the call. -/
theorem C6_error_propagates_atomically (It E M D Params : Type)
    (t : DefaultTuner Params) (a : MLAlgo It E Params) (it : Option It) (e : E)
    (h : a.init_params_on_input it = Except.error e) :
    (DefaultTuner.fit t a it : FitOutcome Params E M D).result = Except.error e
    ∧ (DefaultTuner.fit t a it : FitOutcome Params E M D).tuner = t
    ∧ DefaultTuner.best_params (DefaultTuner.fit t a it : FitOutcome Params E M D).tuner
        = DefaultTuner.best_params t := by
  simp [DefaultTuner.fit, h]

/-- Witness for C6 at a concrete input: an algorithm that always raises
error `3`. -/
theorem C6_error_propagates_atomically_witness :
    (failAlgo Unit Nat (3 : Nat)).init_params_on_input Option.none = Except.error 3
    ∧ ((DefaultTuner.fit (DefaultTuner.new Nat) (failAlgo Unit Nat 3) Option.none :
          FitOutcome Nat Nat Unit Unit).result = Except.error 3
        ∧ (DefaultTuner.fit (DefaultTuner.new Nat) (failAlgo Unit Nat 3) Option.none :
            FitOutcome Nat Nat Unit Unit).tuner = DefaultTuner.new Nat
        ∧ DefaultTuner.best_params (DefaultTuner.fit (DefaultTuner.new Nat)
            (failAlgo Unit Nat 3) Option.none : FitOutcome Nat Nat Unit Unit).tuner
          = DefaultTuner.best_params (DefaultTuner.new Nat)) :=
  ⟨rfl, C6_error_propagates_atomically Unit Nat Unit Unit Nat (DefaultTuner.new Nat)
    (failAlgo Unit Nat 3) Option.none 3 rfl⟩

/-- Counterexample to claim C7 as stated ("every call to fit writes the
best-params field exactly once"): a call in which the algorithm's
`init_params_on_input` raises executes no assignment at all, so its
write list is empty, not the single best-params write. -/
theorem C7_counterexample :
    (DefaultTuner.fit (DefaultTuner.new Nat) (failAlgo Unit Nat (3 : Nat)) Option.none :
        FitOutcome Nat Nat Unit Unit).writes
      ≠ [TunerField.bestParams] := by
  simp [DefaultTuner.fit, failAlgo]

/-- Claim C7 (amended: restricted to calls in which
`init_params_on_input` returns normally).  Such a call writes the
best-params field exactly once and modifies no other tuner field. -/
theorem C7_single_write_frame (It E M D Params : Type) (t : DefaultTuner Params)
    (a : MLAlgo It E Params) (it : Option It) (p : Params)
    (h : a.init_params_on_input it = Except.ok p) :
    (DefaultTuner.fit t a it : FitOutcome Params E M D).writes = [TunerField.bestParams]
    ∧ (DefaultTuner.fit t a it : FitOutcome Params E M D).tuner.inst_name = t.inst_name
    ∧ (DefaultTuner.fit t a it : FitOutcome Params E M D).tuner.inst_fit_on_holdout
        = t.inst_fit_on_holdout
    ∧ DefaultTuner.getName (DefaultTuner.fit t a it : FitOutcome Params E M D).tuner
        = DefaultTuner.getName t
    ∧ DefaultTuner.getFitOnHoldout (DefaultTuner.fit t a it : FitOutcome Params E M D).tuner
        = DefaultTuner.getFitOnHoldout t := by
  simp [DefaultTuner.fit, h, DefaultTuner.getName, DefaultTuner.getFitOnHoldout]

/-- Witness for the amended C7 at a concrete input. -/
theorem C7_single_write_frame_witness :
    (constAlgo Unit Unit (5 : Nat)).init_params_on_input Option.none = Except.ok 5
    ∧ ((DefaultTuner.fit (DefaultTuner.new Nat) (constAlgo Unit Unit 5) Option.none :
          FitOutcome Nat Unit Unit Unit).writes = [TunerField.bestParams]
        ∧ (DefaultTuner.fit (DefaultTuner.new Nat) (constAlgo Unit Unit 5) Option.none :
            FitOutcome Nat Unit Unit Unit).tuner.inst_name = (DefaultTuner.new Nat).inst_name
        ∧ (DefaultTuner.fit (DefaultTuner.new Nat) (constAlgo Unit Unit 5) Option.none :
            FitOutcome Nat Unit Unit Unit).tuner.inst_fit_on_holdout
            = (DefaultTuner.new Nat).inst_fit_on_holdout
        ∧ DefaultTuner.getName (DefaultTuner.fit (DefaultTuner.new Nat)
            (constAlgo Unit Unit 5) Option.none : FitOutcome Nat Unit Unit Unit).tuner
          = DefaultTuner.getName (DefaultTuner.new Nat)
        ∧ DefaultTuner.getFitOnHoldout (DefaultTuner.fit (DefaultTuner.new Nat)
            (constAlgo Unit Unit 5) Option.none : FitOutcome Nat Unit Unit Unit).tuner
          = DefaultTuner.getFitOnHoldout (DefaultTuner.new Nat)) :=
  ⟨rfl, C7_single_write_frame Unit Unit Unit Unit Nat (DefaultTuner.new Nat)
    (constAlgo Unit Unit 5) Option.none 5 rfl⟩

/-- Claim C8.  Construction of the descriptors is total and
unconstrained: for every argument values — including `low > high`,
non-positive `q`, an empty options list — the constructors return
normally (no validation, and being pure functions, no side effects). -/
theorem C8_construction_total (α β : Type) (low high : α) (q : Option α)
    (lg : Bool) (opts : List β) :
    (∃ u, Uniform.init low high q lg = Except.ok u)
    ∧ (∃ c, Choice.init opts = Except.ok c)
    ∧ (∃ n, Normal.init low high q lg = Except.ok n) :=
  ⟨⟨⟨low, high, q, lg⟩, rfl⟩, ⟨⟨opts⟩, rfl⟩, ⟨⟨low, high, q, lg⟩, rfl⟩⟩

/-- Claim C9.  `Normal` has exactly the constructor shape of `Uniform`:
for every arguments, the two constructors store identical field values
`(low, high, q, log)`. -/
theorem C9_normal_matches_uniform (α : Type) (low high : α) (q : Option α) (lg : Bool) :
    (Normal.init low high q lg).map (fun n => (n.low, n.high, n.q, n.log))
      = (Uniform.init low high q lg).map (fun u => (u.low, u.high, u.q, u.log)) :=
  rfl

/-- Claim C10.  Defaults: omitted `q` is `None` and omitted `log` is
`False` for `Uniform` and `Normal`; `fit` with the iterator omitted is
`fit` with iterator `None`; the class-level tuner defaults are name
`"AbstractTuner"` (`"DefaultTuner"` on `DefaultTuner`) and holdout flag
`False`, and a fresh `DefaultTuner` reads those defaults. -/
theorem C10_default_values (α : Type) (low high : α) :
    Uniform.initTwo low high = Uniform.init low high Option.none false
    ∧ Normal.initTwo low high = Normal.init low high Option.none false
    ∧ (∃ u, Uniform.initTwo low high = Except.ok u ∧ u.q = Option.none ∧ u.log = false)
    ∧ (∃ n, Normal.initTwo low high = Except.ok n ∧ n.q = Option.none ∧ n.log = false)
    ∧ (∀ (It E M D : Type) (t : DefaultTuner α) (a : MLAlgo It E α),
        (DefaultTuner.fitNoIter t a : FitOutcome α E M D)
          = DefaultTuner.fit t a Option.none)
    ∧ ParamsTuner.class_name = "AbstractTuner"
    ∧ DefaultTuner.class_name = "DefaultTuner"
    ∧ ParamsTuner.class_fit_on_holdout = false
    ∧ DefaultTuner.getName (DefaultTuner.new α) = "DefaultTuner"
    ∧ DefaultTuner.getFitOnHoldout (DefaultTuner.new α) = false :=
  ⟨rfl, rfl,
   ⟨⟨low, high, Option.none, false⟩, rfl, rfl, rfl⟩,
   ⟨⟨low, high, Option.none, false⟩, rfl, rfl, rfl⟩,
   fun _ _ _ _ _ _ => rfl,
   rfl, rfl, rfl, rfl, rfl⟩

end ClearAML
